import Mathlib

/-!
# Verification of the `ResearchAgent` research pipeline

Shallow embedding of `web_search.py` (class `ResearchAgent`): construction with
credential fallback, query planning by JSON-parsing an LLM response with a
raw-text fallback, per-query web search with top-N slicing and placeholder
defaults, context rendering, synthesis, and source de-duplication.

External effects are modelled as explicit oracles: the language model is a
function from prompt text to response text, and the search provider is a
function from the query value to the list of raw organic-result records.
Machine-level details that the pipeline relies on are modelled explicitly:

* `jsonLoads` models Python's `json.loads` (RFC 8259 grammar; numbers are kept
  as their literal text since no downstream code inspects numeric values; the
  CPython `NaN`/`Infinity` extensions are omitted, and `\uXXXX` escapes decode
  to a single code point without surrogate-pair combination);
* `pyStrip` models `str.strip` (ASCII whitespace, the forms that occur here);
* `pyOr` and `pyTruthy` model Python `or` and truthiness on optional strings;
* `pySliceTo` models the Python slice `xs[:n]`, including negative `n`;
* `pyListSet` models `list(set(xs))`: CPython's iteration order over a set is
  unspecified, so it is modelled as a canonical de-duplication; every property
  proved about it is order-insensitive (membership and `Nodup`);
* `pyFmt` models `str(v)` applied to a `json.loads`-decoded value as used by
  f-string interpolation (exact on strings, the only case the code's own tests
  exercise; `repr` of compound values is approximated without escape handling).
-/

/-- A value decoded by `json.loads`.  Numbers keep their literal text: the
pipeline only ever asks whether the decoded value is a list, so exact numeric
semantics are never consulted. -/
inductive JVal where
  | jnull : JVal
  | jbool : Bool → JVal
  | jnum : String → JVal
  | jstr : String → JVal
  | jarr : List JVal → JVal
  | jobj : List (String × JVal) → JVal
  deriving Inhabited

/-- JSON insignificant whitespace (RFC 8259: space, tab, line feed, carriage
return), as skipped by Python's `json` scanner. -/
def skipWs : List Char → List Char
  | [] => []
  | c :: cs => if c = ' ' ∨ c = '\t' ∨ c = '\n' ∨ c = '\r' then skipWs cs else c :: cs

/-- Value of one hexadecimal digit, for `\uXXXX` string escapes. -/
def hexVal (c : Char) : Option Nat :=
  if '0' ≤ c ∧ c ≤ '9' then some (c.toNat - 48)
  else if 'a' ≤ c ∧ c ≤ 'f' then some (c.toNat - 87)
  else if 'A' ≤ c ∧ c ≤ 'F' then some (c.toNat - 55)
  else none

/-- Body of a JSON string literal (after the opening quote): plain characters,
the standard escapes, and `\uXXXX`; raw control characters are rejected, as by
`json.loads` in its default strict mode.  Fueled for structural totality. -/
def parseStr : Nat → List Char → List Char → Option (String × List Char)
  | 0, _, _ => none
  | Nat.succ fuel, acc, cs =>
    match cs with
    | [] => none
    | c :: rest =>
      if c = '"' then some (String.mk acc.reverse, rest)
      else if c = '\\' then
        match rest with
        | [] => none
        | e :: rest2 =>
          if e = '"' then parseStr fuel ('"' :: acc) rest2
          else if e = '\\' then parseStr fuel ('\\' :: acc) rest2
          else if e = '/' then parseStr fuel ('/' :: acc) rest2
          else if e = 'b' then parseStr fuel (Char.ofNat 8 :: acc) rest2
          else if e = 'f' then parseStr fuel (Char.ofNat 12 :: acc) rest2
          else if e = 'n' then parseStr fuel ('\n' :: acc) rest2
          else if e = 'r' then parseStr fuel ('\r' :: acc) rest2
          else if e = 't' then parseStr fuel ('\t' :: acc) rest2
          else if e = 'u' then
            match rest2 with
            | h1 :: h2 :: h3 :: h4 :: rest3 =>
              match hexVal h1, hexVal h2, hexVal h3, hexVal h4 with
              | some a, some b, some c2, some d =>
                parseStr fuel (Char.ofNat (((a * 16 + b) * 16 + c2) * 16 + d) :: acc) rest3
              | _, _, _, _ => none
            | _ => none
          else none
      else if c.toNat < 32 then none
      else parseStr fuel (c :: acc) rest

/-- Longest digit run at the head of the input. -/
def takeDigits : List Char → List Char × List Char
  | [] => ([], [])
  | c :: cs =>
    if c.isDigit then
      match takeDigits cs with
      | (ds, rest) => (c :: ds, rest)
    else ([], c :: cs)

/-- Optional exponent part of a JSON number; `lit` is the literal accumulated
so far.  Returns the full literal text and the remaining input. -/
def parseExpPart (lit : List Char) (cs : List Char) : Option (String × List Char) :=
  match cs with
  | c :: r =>
    if c = 'e' ∨ c = 'E' then
      let (sgn, r2) :=
        match r with
        | s :: r3 => if s = '+' ∨ s = '-' then ([s], r3) else (([] : List Char), r)
        | [] => (([] : List Char), r)
      match takeDigits r2 with
      | ([], _) => none
      | (eds, rest) => some (String.mk (lit ++ c :: (sgn ++ eds)), rest)
    else some (String.mk lit, c :: r)
  | [] => some (String.mk lit, [])

/-- A JSON number literal: `-?(0|[1-9][0-9]*)(\.[0-9]+)?([eE][+-]?[0-9]+)?`. -/
def parseNum (cs : List Char) : Option (String × List Char) :=
  let (signPart, cs1) :=
    match cs with
    | '-' :: r => (['-'], r)
    | _ => (([] : List Char), cs)
  match takeDigits cs1 with
  | ([], _) => none
  | (ids, rest1) =>
    if 1 < ids.length ∧ ids.head? = some '0' then none
    else
      match rest1 with
      | '.' :: r2 =>
        match takeDigits r2 with
        | ([], _) => none
        | (fds, rest2) => parseExpPart (signPart ++ ids ++ '.' :: fds) rest2
      | _ => parseExpPart (signPart ++ ids) rest1

/-- Match the tail of a keyword literal (`true`, `false`, `null`). -/
def dropLit : List Char → List Char → Option (List Char)
  | [], cs => some cs
  | _ :: _, [] => none
  | l :: ls, c :: cs => if c = l then dropLit ls cs else none

mutual

/-- One JSON value.  Structure mirrors Python's `json` decoder: leading
whitespace is skipped, then the value is dispatched on its first character.
Fuel decreases on every nested value, making the recursion structural. -/
def parseVal : Nat → List Char → Option (JVal × List Char)
  | 0, _ => none
  | Nat.succ fuel, cs =>
    match skipWs cs with
    | [] => none
    | c :: rest =>
      if c = '"' then
        match parseStr (rest.length + 1) [] rest with
        | some (s, r) => some (JVal.jstr s, r)
        | none => none
      else if c = '[' then
        match skipWs rest with
        | c2 :: r2 =>
          if c2 = ']' then some (JVal.jarr [], r2)
          else
            match parseArrItems fuel (c2 :: r2) with
            | some (vs, r3) => some (JVal.jarr vs, r3)
            | none => none
        | [] => none
      else if c.toNat = 123 then
        match skipWs rest with
        | c2 :: r2 =>
          if c2.toNat = 125 then some (JVal.jobj [], r2)
          else
            match parseObjItems fuel (c2 :: r2) with
            | some (kvs, r3) => some (JVal.jobj kvs, r3)
            | none => none
        | [] => none
      else if c = 't' then
        match dropLit ['r', 'u', 'e'] rest with
        | some r => some (JVal.jbool true, r)
        | none => none
      else if c = 'f' then
        match dropLit ['a', 'l', 's', 'e'] rest with
        | some r => some (JVal.jbool false, r)
        | none => none
      else if c = 'n' then
        match dropLit ['u', 'l', 'l'] rest with
        | some r => some (JVal.jnull, r)
        | none => none
      else if c = '-' ∨ c.isDigit then
        match parseNum (c :: rest) with
        | some (s, r) => some (JVal.jnum s, r)
        | none => none
      else none

/-- Comma-separated items of a non-empty JSON array, up to the closing `]`. -/
def parseArrItems : Nat → List Char → Option (List JVal × List Char)
  | 0, _ => none
  | Nat.succ fuel, cs =>
    match parseVal fuel cs with
    | none => none
    | some (v, r) =>
      match skipWs r with
      | ',' :: r2 =>
        match parseArrItems fuel r2 with
        | some (vs, r3) => some (v :: vs, r3)
        | none => none
      | c :: r2 => if c = ']' then some ([v], r2) else none
      | [] => none

/-- Comma-separated members of a non-empty JSON object, up to the closing
brace. -/
def parseObjItems : Nat → List Char → Option (List (String × JVal) × List Char)
  | 0, _ => none
  | Nat.succ fuel, cs =>
    match skipWs cs with
    | c :: rest =>
      if c = '"' then
        match parseStr (rest.length + 1) [] rest with
        | some (k, r) =>
          match skipWs r with
          | ':' :: r2 =>
            match parseVal fuel r2 with
            | some (v, r3) =>
              match skipWs r3 with
              | ',' :: r4 =>
                match parseObjItems fuel r4 with
                | some (kvs, r5) => some ((k, v) :: kvs, r5)
                | none => none
              | c2 :: r4 => if c2.toNat = 125 then some ([(k, v)], r4) else none
              | [] => none
            | none => none
          | _ => none
        | none => none
      else none
    | [] => none

end

/-- Model of Python's `json.loads`: parse one JSON value and require that only
whitespace follows; any other outcome is a parse failure (`ValueError`),
modelled as `none`. -/
def jsonLoads (s : String) : Option JVal :=
  match parseVal (2 * s.length + 2) s.toList with
  | some (v, rest) => if skipWs rest = [] then some v else none
  | none => none

/-- Whitespace removed by `str.strip()` (the ASCII forms that occur in LLM
responses: space, tab, line feed, carriage return). -/
def isPySpace (c : Char) : Bool := c = ' ' ∨ c = '\t' ∨ c = '\n' ∨ c = '\r'

/-- Model of Python's `str.strip()`: drop leading and trailing whitespace. -/
def pyStrip (s : String) : String :=
  String.mk (((s.toList.dropWhile isPySpace).reverse.dropWhile isPySpace).reverse)

/-- Python truthiness of an optional string: `None` and `""` are falsy. -/
def pyTruthy : Option String → Bool
  | none => false
  | some s => !(s == "")

/-- Python's `x or y` on optional strings: `y` when `x` is falsy. -/
def pyOr (x y : Option String) : Option String :=
  if pyTruthy x then x else y

/-- The Python slice `xs[:n]`: for `n ≥ 0` the first `min n (length xs)`
elements; for `n < 0` the stop index is `length xs + n`, clamped at zero. -/
def pySliceStop (n : Int) (len : Nat) : Nat :=
  if 0 ≤ n then min n.toNat len else ((len : Int) + n).toNat

/-- `xs[:n]` itself. -/
def pySliceTo {α : Type} (n : Int) (xs : List α) : List α :=
  xs.take (pySliceStop n xs.length)

/-- Model of `list(set(xs))` up to iteration order, which CPython leaves
unspecified: the distinct elements of `xs`.  All properties proved about it
are order-insensitive (membership and absence of duplicates). -/
def pyListSet (xs : List String) : List String := xs.dedup

mutual

/-- Approximation of Python `repr` on a `json.loads`-decoded value (string
escaping inside `repr` is omitted; compound values are never rendered by any
property proved below). -/
def pyRepr : JVal → String
  | JVal.jnull => "None"
  | JVal.jbool true => "True"
  | JVal.jbool false => "False"
  | JVal.jnum s => s
  | JVal.jstr s => "'" ++ s ++ "'"
  | JVal.jarr xs => "[" ++ pyReprSep xs ++ "]"
  | JVal.jobj kvs => "\x7b" ++ pyReprPairs kvs ++ "\x7d"

/-- Comma-separated `repr`s of a list's elements. -/
def pyReprSep : List JVal → String
  | [] => ""
  | [v] => pyRepr v
  | v :: vs => pyRepr v ++ ", " ++ pyReprSep vs

/-- Comma-separated `repr`s of a dict's members. -/
def pyReprPairs : List (String × JVal) → String
  | [] => ""
  | [(k, v)] => "'" ++ k ++ "': " ++ pyRepr v
  | (k, v) :: kvs => "'" ++ k ++ "': " ++ pyRepr v ++ ", " ++ pyReprPairs kvs

end

/-- Model of Python `str(v)` as used by f-string interpolation on a decoded
value: a string formats as itself, anything else by its `repr`. -/
def pyFmt : JVal → String
  | JVal.jstr s => s
  | JVal.jnull => pyRepr JVal.jnull
  | JVal.jbool b => pyRepr (JVal.jbool b)
  | JVal.jnum s => pyRepr (JVal.jnum s)
  | JVal.jarr xs => pyRepr (JVal.jarr xs)
  | JVal.jobj kvs => pyRepr (JVal.jobj kvs)

/-! ### Data model (from `web_search.py`) -/

/-- One raw record of the provider's `organic_results` list; the `title`,
`snippet` and `link` fields may each be absent (`r.get(...)` in the source). -/
structure OrganicResult where
  title : Option String
  snippet : Option String
  link : Option String
  deriving Repr, DecidableEq

/-- One structured search result as built by `_search_web`. -/
structure SearchResult where
  title : String
  snippet : String
  url : String
  deriving Repr, DecidableEq

/-- The per-query block `{"query": query, "results": results}` returned by
`_search_web`.  The query is whatever value the planner produced: the code
passes planner output to `_search_web` unchecked, so it need not be a string. -/
structure QueryBlock where
  query : JVal
  results : List SearchResult

/-- One trace entry of the `steps` list. -/
structure Step where
  type : String
  content : String
  deriving Repr, DecidableEq

/-- The dictionary returned by `ResearchAgent.run`. -/
structure ResearchResult where
  question : String
  answer : String
  sources : List String
  steps : List Step
  deriving Repr, DecidableEq

/-- Ambient environment state read by `os.getenv` at construction:
`GEMINI_API_KEY` and `SERPAPI_API_KEY` (absent or set, possibly to `""`). -/
structure Env where
  geminiApiKey : Option String
  serpapiApiKey : Option String

/-- Configuration held by a constructed `ResearchAgent`.  The keys keep the
resolved optional values assigned to `self.gemini_key` / `self.serp_key`. -/
structure ResearchAgent where
  model : String
  topn : Int
  debug : Bool
  gemini_key : Option String
  serp_key : Option String

/-- `ResearchAgent.__init__`: resolve each credential as
`explicit or os.getenv(...)` and fail with `RuntimeError` when either resolved
credential is falsy; `model`, `topn` and `debug` are stored unvalidated. -/
def ResearchAgent.init (model : String) (topn : Int) (debug : Bool)
    (gemini_key serpapi_key : Option String) (env : Env) : Except String ResearchAgent :=
  let g := pyOr gemini_key env.geminiApiKey
  let s := pyOr serpapi_key env.serpapiApiKey
  if !pyTruthy g || !pyTruthy s then
    Except.error "GEMINI_API_KEY and SERPAPI_API_KEY must be set."
  else
    Except.ok { model := model, topn := topn, debug := debug, gemini_key := g, serp_key := s }

/-- The constant system prompt assigned to `self.sys_prompt`. -/
def sysPrompt : String :=
  "You are a research assistant working as of the current date, 2025-11-02. Your task is to provide answers based on today's date, ensuring all information is current and accurate.\n" ++
  "When the user requests information about current events, such as live scores, ongoing matches, or recent data, you are required to search relevant, authoritative websites for the most up-to-date information and present it.\n" ++
  "If the user asks for real-time data like the score of a cricket match, use web search tools to find and provide the most accurate and current results available.\n" ++
  "Always cite the sources you reference in Markdown format, like this: [Source](https://example.com).\n" ++
  "Your responses should be concise, factual, and supported by the most recent information from trustworthy sources."

/-- Field defaulting of `_search_web`: `r.get("title", "(untitled)")`,
`r.get("snippet", "(no snippet)")`, `r.get("link", "")`. -/
def toSearchResult (r : OrganicResult) : SearchResult :=
  { title := r.title.getD "(untitled)"
    snippet := r.snippet.getD "(no snippet)"
    url := r.link.getD "" }

/-- `ResearchAgent._search_web`: fetch the provider's `organic_results` for the
query, truncate with the slice `[: self.topn]`, and build the block.  The
provider oracle stands for the `GoogleSearch` call (whose request also carries
the fixed `api_key` and `num = topn`, neither of which the oracle needs to see
to model any property proved here). -/
def ResearchAgent.searchWeb (a : ResearchAgent) (provider : JVal → List OrganicResult)
    (query : JVal) : QueryBlock :=
  let data := pySliceTo a.topn (provider query)
  { query := query, results := data.map toSearchResult }

/-- The planning step applied to the stripped response text
`search_queries_text`: `json.loads`, keep the value only when it is a list,
otherwise (wrong type or parse error) fall back to `[search_queries_text]`. -/
def planQueries (search_queries_text : String) : List JVal :=
  match jsonLoads search_queries_text with
  | some (JVal.jarr xs) => xs
  | some _ => [JVal.jstr search_queries_text]
  | none => [JVal.jstr search_queries_text]

/-- The whole planning stage as a function of the raw LLM response:
`search_queries_text = response.text.strip()` followed by `planQueries`. -/
def planFromResponse (responseText : String) : List JVal :=
  planQueries (pyStrip responseText)

/-- The planning prompt built in `run` (independent of the configuration). -/
def searchPrompt (question : String) : String :=
  sysPrompt ++ "\n\n" ++
  "User question: " ++ question ++ "\n\n" ++
  "List up to 5 specific Google search queries (in JSON array format) " ++
  "that will help answer the question. Example:\n" ++
  "[\"topic 1\", \"topic 2\"]"

/-- The synthesis prompt built in `run` from the question and the rendered
context. -/
def finalPrompt (question combined_context : String) : String :=
  sysPrompt ++ "\n\n" ++
  "User question: " ++ question ++ "\n\n" ++
  "Here are the gathered search results (with URLs):\n\n" ++
  combined_context ++ "\n\n" ++
  "Now write a detailed, well-structured, and factually correct answer. " ++
  "At the end, include a short 'Sources' section listing all relevant URLs in Markdown format."

/-- The fan-out retrieval stage: `pool.map(self._search_web, queries)` with
`ThreadPoolExecutor` join-all semantics — each worker owns the output slot of
its input position, so the collected list pairs blocks with input queries
positionally regardless of completion order; functionally this is `List.map`. -/
def ResearchAgent.retrieve (a : ResearchAgent) (provider : JVal → List OrganicResult)
    (queries : List JVal) : List QueryBlock :=
  queries.map (a.searchWeb provider)

/-- The rendering of one block inside `run`'s aggregation loop:
`block_text = f"### Search: \x7bq\x7d\n"` then
`block_text += f"- \x7btitle\x7d: \x7bsnippet\x7d\n(Source: \x7burl\x7d)\n"`
per result, in order. -/
def renderBlock (b : QueryBlock) : String :=
  b.results.foldl
    (fun block_text r =>
      block_text ++ ("- " ++ r.title ++ ": " ++ r.snippet ++ "\n(Source: " ++ r.url ++ ")\n"))
    ("### Search: " ++ pyFmt b.query ++ "\n")

/-- `combined_context = "\n".join(combined_context_parts)`. -/
def renderContext (blocks : List QueryBlock) : String :=
  String.intercalate "\n" (blocks.map renderBlock)

/-- The URL collection of `run`'s aggregation loop: across blocks in order,
each result's `url` when it is truthy (non-empty). -/
def collectUrls : List QueryBlock → List String
  | [] => []
  | b :: bs => (b.results.map SearchResult.url).filter (fun u => !(u == "")) ++ collectUrls bs

/-- The plan computed inside `run` for a question, given the LLM oracle. -/
def ResearchAgent.planOf (a : ResearchAgent) (llm : String → String)
    (question : String) : List JVal :=
  planFromResponse (llm (searchPrompt question))

/-- The query blocks produced inside one invocation of `run`. -/
def ResearchAgent.runBlocks (a : ResearchAgent) (llm : String → String)
    (provider : JVal → List OrganicResult) (question : String) : List QueryBlock :=
  a.retrieve provider (a.planOf llm question)

/-- `ResearchAgent.run`: plan, retrieve, aggregate context and URLs, synthesize
(`answer = final_response.text.strip()`), and assemble the result dictionary
with `sources = list(set(all_urls))` and the single trace step.  The `debug`
prints touch only standard output, never the returned value, so they have no
counterpart in the embedding. -/
def ResearchAgent.run (a : ResearchAgent) (llm : String → String)
    (provider : JVal → List OrganicResult) (question : String) : ResearchResult :=
  let results := a.runBlocks llm provider question
  let combined_context := renderContext results
  let all_urls := collectUrls results
  let answer := pyStrip (llm (finalPrompt question combined_context))
  { question := question
    answer := answer
    sources := pyListSet all_urls
    steps := [{ type := "assistant_answer", content := answer }] }

/-! ### Helper lemmas -/

/-- Membership in the collected URL list: a URL is collected iff it is
non-empty and appears in some result of some block. -/
theorem mem_collectUrls (u : String) :
    ∀ bs : List QueryBlock,
      u ∈ collectUrls bs ↔ u ≠ "" ∧ ∃ b ∈ bs, ∃ r ∈ b.results, r.url = u
  | [] => by simp [collectUrls]
  | b :: bs => by
    simp only [collectUrls, List.mem_append, List.mem_filter, List.mem_map,
      mem_collectUrls u bs, List.mem_cons, Bool.not_eq_true', beq_eq_false_iff_ne]
    constructor
    · rintro (⟨⟨r, hr, hru⟩, hne⟩ | ⟨hne, b2, hb2, r, hr, hru⟩)
      · exact ⟨hne, b, Or.inl rfl, r, hr, hru⟩
      · exact ⟨hne, b2, Or.inr hb2, r, hr, hru⟩
    · rintro ⟨hne, b2, hb2 | hb2, r, hr, hru⟩
      · subst hb2
        exact Or.inl ⟨⟨r, hr, hru⟩, hne⟩
      · exact Or.inr ⟨hne, b2, hb2, r, hr, hru⟩

/-- Folding string concatenation from an initial value prepends it. -/
theorem foldl_string_append :
    ∀ (l : List String) (a b : String),
      l.foldl (fun x y => x ++ y) (a ++ b) = a ++ l.foldl (fun x y => x ++ y) b
  | [], _, _ => rfl
  | s :: l, a, b => by
    simp only [List.foldl]
    rw [String.append_assoc, foldl_string_append l a (b ++ s)]

/-- `String.join` of a cons. -/
theorem string_join_cons (s : String) (l : List String) :
    String.join (s :: l) = s ++ String.join l := by
  show l.foldl (fun x y => x ++ y) ("" ++ s) = s ++ l.foldl (fun x y => x ++ y) ""
  rw [String.empty_append, ← String.append_empty s, foldl_string_append l s "",
    String.append_empty]

/-- The aggregation loop of `run` appends one rendered line per result to the
initial header text. -/
theorem foldl_lines_closed (f : SearchResult → String) :
    ∀ (rs : List SearchResult) (a : String),
      rs.foldl (fun acc r => acc ++ f r) a = a ++ String.join (rs.map f)
  | [], a => by simp [String.join, String.append_empty]
  | r :: rs, a => by
    simp only [List.foldl, List.map]
    rw [foldl_lines_closed f rs (a ++ f r), string_join_cons, String.append_assoc]

/-- `xs.take (min n (length xs))` is `xs.take n`. -/
theorem take_min_length {α : Type} (n : Nat) (xs : List α) :
    xs.take (min n xs.length) = xs.take n := by
  rcases Nat.le_total n xs.length with h | h
  · rw [Nat.min_eq_left h]
  · rw [Nat.min_eq_right h, List.take_of_length_le h,
      List.take_of_length_le (Nat.le_refl _)]

/-! ### Claims -/

/-- **C1.** For every invocation of `run`, the `sources` field of the returned
`ResearchResult` contains exactly the distinct non-empty URLs appearing across
all `QueryBlock`s produced in that invocation: every result whose `url` is
non-empty contributes its URL, duplicate URLs collapse to a single entry
(`sources` has no duplicates), and the empty-string URL is excluded. -/
theorem run_sources_exactly_distinct_nonempty_urls
    (a : ResearchAgent) (llm : String → String)
    (provider : JVal → List OrganicResult) (question : String) :
    (a.run llm provider question).sources.Nodup ∧
    ∀ u : String, u ∈ (a.run llm provider question).sources ↔
      u ≠ "" ∧ ∃ b ∈ a.runBlocks llm provider question, ∃ r ∈ b.results, r.url = u := by
  constructor
  · exact List.nodup_dedup _
  · intro u
    show u ∈ (collectUrls (a.runBlocks llm provider question)).dedup ↔ _
    rw [List.mem_dedup, mem_collectUrls]

/-- **C2.** Constructing the orchestrator fails with the fatal configuration
error exactly when at least one of the two credentials is unset (falsy) after
the explicit-parameter-then-environment fallback; when both credentials
resolve to truthy (non-empty) values, construction succeeds, returning the
agent with the resolved credentials stored. -/
theorem init_fails_iff_credential_unset (model : String) (topn : Int) (debug : Bool)
    (gk sk : Option String) (env : Env) :
    ((∃ e, ResearchAgent.init model topn debug gk sk env = Except.error e) ↔
      (pyTruthy (pyOr gk env.geminiApiKey) = false ∨
       pyTruthy (pyOr sk env.serpapiApiKey) = false)) ∧
    (pyTruthy (pyOr gk env.geminiApiKey) = true →
     pyTruthy (pyOr sk env.serpapiApiKey) = true →
      ResearchAgent.init model topn debug gk sk env =
        Except.ok { model := model, topn := topn, debug := debug,
                    gemini_key := pyOr gk env.geminiApiKey,
                    serp_key := pyOr sk env.serpapiApiKey }) := by
  rcases h1 : pyTruthy (pyOr gk env.geminiApiKey) <;>
    rcases h2 : pyTruthy (pyOr sk env.serpapiApiKey) <;>
      simp [ResearchAgent.init, h1, h2]

/-- Witness for **C2** at a concrete configuration: the LLM key given
explicitly, the search key via the environment fallback. -/
theorem init_fails_iff_credential_unset_witness :
    pyTruthy (pyOr (some "k1") (Env.mk none (some "k2")).geminiApiKey) = true ∧
    pyTruthy (pyOr none (Env.mk none (some "k2")).serpapiApiKey) = true ∧
    ResearchAgent.init "gemini-2.5-flash" 10 false (some "k1") none (Env.mk none (some "k2")) =
      Except.ok { model := "gemini-2.5-flash", topn := 10, debug := false,
                  gemini_key := pyOr (some "k1") (Env.mk none (some "k2")).geminiApiKey,
                  serp_key := pyOr none (Env.mk none (some "k2")).serpapiApiKey } :=
  ⟨rfl, rfl,
    (init_fails_iff_credential_unset "gemini-2.5-flash" 10 false (some "k1") none
      (Env.mk none (some "k2"))).2 rfl rfl⟩

/-- **C3 (counterexample).** The claim says the fallback plan is the
single-element list containing the *raw* response text; the code strips the
response first.  For the raw response `"find recent scores\n"` the parse
fails, yet the plan is `["find recent scores"]`, not
`["find recent scores\n"]`. -/
theorem plan_raw_fallback_counterexample :
    jsonLoads "find recent scores\n" = none ∧
    planFromResponse "find recent scores\n" = [JVal.jstr "find recent scores"] ∧
    planFromResponse "find recent scores\n" ≠ [JVal.jstr "find recent scores\n"] := by
  refine ⟨rfl, rfl, ?_⟩
  have e : planFromResponse "find recent scores\n" = [JVal.jstr "find recent scores"] := rfl
  rw [e]
  intro h
  injection h with h1 _
  injection h1 with hs
  exact absurd hs (by decide)

/-- **C3 (amended).** For every raw language-model planning response, if
parsing the *stripped* response text as JSON fails, or the parsed value is not
an array, then the planned query list equals the single-element list
containing the *stripped* raw response text; planning is a total function and
never raises a parse error to the caller. -/
theorem plan_fallback_on_parse_failure (responseText : String)
    (h : jsonLoads (pyStrip responseText) = none ∨
      ∃ v, jsonLoads (pyStrip responseText) = some v ∧ ∀ xs, v ≠ JVal.jarr xs) :
    planFromResponse responseText = [JVal.jstr (pyStrip responseText)] := by
  unfold planFromResponse planQueries
  rcases h with h | ⟨v, hv, hna⟩
  · rw [h]
  · rw [hv]
    cases v with
    | jarr xs => exact absurd rfl (hna xs)
    | jnull => rfl
    | jbool b => rfl
    | jnum s => rfl
    | jstr s => rfl
    | jobj kvs => rfl

/-- Witness for **C3 (amended)** at the spec's own example response. -/
theorem plan_fallback_on_parse_failure_witness :
    jsonLoads (pyStrip "find recent scores") = none ∧
    planFromResponse "find recent scores" = [JVal.jstr (pyStrip "find recent scores")] :=
  ⟨rfl, plan_fallback_on_parse_failure "find recent scores" (Or.inl rfl)⟩

/-- **C4 (counterexample).** The code enforces no 1-to-5 bound: the response
`"[]"` parses to an empty array and yields zero planned queries, and the
response `"[1, 2, 3, 4, 5, 6]"` yields six planned queries (none of which is
a string). -/
theorem plan_bounds_counterexample :
    planFromResponse "[]" = [] ∧
    (planFromResponse "[1, 2, 3, 4, 5, 6]").length = 6 :=
  ⟨rfl, rfl⟩

/-- **C4 (amended).** For every question and every language-model planning
response, the planned query list is either the parsed JSON array verbatim
(whenever the stripped response parses as a JSON array — so it may be empty,
have more than 5 entries, and contain non-string values) or else the
single-element list containing the stripped raw response text; only in the
fallback case is a one-element plan guaranteed. -/
theorem plan_is_parsed_array_or_singleton_fallback (responseText : String) :
    (∃ xs, jsonLoads (pyStrip responseText) = some (JVal.jarr xs) ∧
      planFromResponse responseText = xs) ∨
    (planFromResponse responseText = [JVal.jstr (pyStrip responseText)] ∧
      (planFromResponse responseText).length = 1) := by
  unfold planFromResponse planQueries
  rcases h : jsonLoads (pyStrip responseText) with - | v
  · exact Or.inr ⟨rfl, rfl⟩
  · cases v with
    | jarr xs => exact Or.inl ⟨xs, rfl, rfl⟩
    | jnull => exact Or.inr ⟨rfl, rfl⟩
    | jbool b => exact Or.inr ⟨rfl, rfl⟩
    | jnum s => exact Or.inr ⟨rfl, rfl⟩
    | jstr s => exact Or.inr ⟨rfl, rfl⟩
    | jobj kvs => exact Or.inr ⟨rfl, rfl⟩

/-- **C5.** For every query and every list of provider results, when the
configured `topn` is non-negative (the configuration documents `topN ≥ 1`),
the `QueryBlock` produced for that query contains exactly the first
`min(topn, number of provider results)` provider results, in the provider's
returned order, each carried through the field-defaulting map. -/
theorem searchWeb_truncates_to_topn (a : ResearchAgent)
    (provider : JVal → List OrganicResult) (query : JVal) (h : 0 ≤ a.topn) :
    (a.searchWeb provider query).results =
      ((provider query).take a.topn.toNat).map toSearchResult ∧
    (a.searchWeb provider query).results.length =
      min a.topn.toNat (provider query).length := by
  constructor
  · show (pySliceTo a.topn (provider query)).map toSearchResult = _
    unfold pySliceTo pySliceStop
    rw [if_pos h, take_min_length]
  · show ((pySliceTo a.topn (provider query)).map toSearchResult).length = _
    unfold pySliceTo pySliceStop
    rw [if_pos h, take_min_length, List.length_map, List.length_take]

/-- A concrete agent with `topn = 5`. -/
def agentTop5 : ResearchAgent :=
  { model := "gemini-2.5-flash", topn := 5, debug := false,
    gemini_key := some "g", serp_key := some "s" }

/-- A provider stub returning 20 organic results for every query. -/
def provider20 : JVal → List OrganicResult :=
  fun _ => (List.range 20).map (fun i => { title := some (toString i), snippet := none, link := none })

/-- Witness for **C5** at the spec's example: `topn = 5` against 20 provider
results keeps exactly the first 5. -/
theorem searchWeb_truncates_to_topn_witness :
    0 ≤ agentTop5.topn ∧
    ((agentTop5.searchWeb provider20 (JVal.jstr "q")).results =
      ((provider20 (JVal.jstr "q")).take agentTop5.topn.toNat).map toSearchResult ∧
     (agentTop5.searchWeb provider20 (JVal.jstr "q")).results.length =
      min agentTop5.topn.toNat (provider20 (JVal.jstr "q")).length) ∧
    (agentTop5.searchWeb provider20 (JVal.jstr "q")).results.length = 5 :=
  ⟨by decide, searchWeb_truncates_to_topn agentTop5 provider20 (JVal.jstr "q") (by decide), rfl⟩

/-- **C6.** For every ordered list of planned queries, the retrieval stage
returns exactly one `QueryBlock` per input query, and the sequence of `query`
fields of the returned blocks equals the input query sequence in the same
order.  (`ThreadPoolExecutor.map` joins all workers and collects results
indexed by input position, so completion order of the concurrent calls cannot
reorder the output; functionally the stage is the positional map embedded
here.) -/
theorem retrieve_preserves_query_order (a : ResearchAgent)
    (provider : JVal → List OrganicResult) (queries : List JVal) :
    (a.retrieve provider queries).length = queries.length ∧
    (a.retrieve provider queries).map QueryBlock.query = queries := by
  constructor
  · simp [ResearchAgent.retrieve]
  · induction queries with
    | nil => rfl
    | cons q qs ih =>
      show (a.searchWeb provider q).query :: (a.retrieve provider qs).map QueryBlock.query = q :: qs
      rw [ih]
      rfl

/-- **C7.** For every provider result record, an absent `title`, `snippet` or
`link` field defaults to `"(untitled)"`, `"(no snippet)"` and `""`
respectively, and a present field's value is carried through unchanged. -/
theorem toSearchResult_defaults_and_passthrough (r : OrganicResult) :
    ((r.title = none → (toSearchResult r).title = "(untitled)") ∧
     (∀ s, r.title = some s → (toSearchResult r).title = s)) ∧
    ((r.snippet = none → (toSearchResult r).snippet = "(no snippet)") ∧
     (∀ s, r.snippet = some s → (toSearchResult r).snippet = s)) ∧
    ((r.link = none → (toSearchResult r).url = "") ∧
     (∀ s, r.link = some s → (toSearchResult r).url = s)) := by
  refine ⟨⟨?_, ?_⟩, ⟨?_, ?_⟩, ⟨?_, ?_⟩⟩
  · intro h; simp [toSearchResult, h]
  · intro s h; simp [toSearchResult, h]
  · intro h; simp [toSearchResult, h]
  · intro s h; simp [toSearchResult, h]
  · intro h; simp [toSearchResult, h]
  · intro s h; simp [toSearchResult, h]

/-- Witness for **C7**: a record with all fields absent gets the three
placeholders; a record with `title`/`snippet` present carries them through. -/
theorem toSearchResult_defaults_and_passthrough_witness :
    (toSearchResult ⟨none, none, none⟩).title = "(untitled)" ∧
    (toSearchResult ⟨none, none, none⟩).snippet = "(no snippet)" ∧
    (toSearchResult ⟨none, none, none⟩).url = "" ∧
    (toSearchResult ⟨some "Paris", some "Paris is the capital...", some "https://example.com/paris"⟩).title = "Paris" ∧
    (toSearchResult ⟨some "Paris", some "Paris is the capital...", some "https://example.com/paris"⟩).url = "https://example.com/paris" :=
  ⟨(toSearchResult_defaults_and_passthrough ⟨none, none, none⟩).1.1 rfl,
   (toSearchResult_defaults_and_passthrough ⟨none, none, none⟩).2.1.1 rfl,
   (toSearchResult_defaults_and_passthrough ⟨none, none, none⟩).2.2.1 rfl,
   (toSearchResult_defaults_and_passthrough
     ⟨some "Paris", some "Paris is the capital...", some "https://example.com/paris"⟩).1.2 _ rfl,
   (toSearchResult_defaults_and_passthrough
     ⟨some "Paris", some "Paris is the capital...", some "https://example.com/paris"⟩).2.2.2 _ rfl⟩

/-- **C8.** The context-rendering step is a pure function of the ordered
`QueryBlock`s — its only input is the block list, so rendering the same blocks
twice yields byte-identical text — and each block renders as the section
`### Search: <query>` followed, for each result in order, by the line
`- <title>: <snippet>` with `(Source: <url>)` on the next line; sections are
joined in block order (separated by the `"\n"` of `"\n".join`). -/
theorem render_context_format (blocks : List QueryBlock) :
    renderContext blocks = String.intercalate "\n" (blocks.map (fun b =>
      "### Search: " ++ pyFmt b.query ++ "\n" ++
      String.join (b.results.map (fun r =>
        "- " ++ r.title ++ ": " ++ r.snippet ++ "\n(Source: " ++ r.url ++ ")\n")))) := by
  unfold renderContext
  congr 1
  apply List.map_congr_left
  intro b _
  unfold renderBlock
  exact foldl_lines_closed _ b.results _

/-- **C9.** For every fixed pair of language-model and search-provider
oracles, two invocations of `run` on orchestrators that differ only in the
`debug` flag return equal `ResearchResult` values: the debug branches write to
standard output only, so the returned result never depends on the flag. -/
theorem run_independent_of_debug (model : String) (topn : Int)
    (gk sk : Option String) (llm : String → String)
    (provider : JVal → List OrganicResult) (question : String) :
    ResearchAgent.run ⟨model, topn, true, gk, sk⟩ llm provider question =
    ResearchAgent.run ⟨model, topn, false, gk, sk⟩ llm provider question := rfl

/-- **C10.** Construction accepts any integer `topn` without validation
(`__init__` checks only the credentials), and the slice `[: topn]` then gives:
with `topn = 0`, an empty results list for every block; with `topn < 0`, all
provider results except the last `|topn|` entries (clamped at zero) rather
than a prefix of length `topn`. -/
theorem topn_unvalidated_and_negative_slice (model : String) (debug : Bool)
    (gk sk : Option String) (env : Env) (topn : Int) (a : ResearchAgent)
    (provider : JVal → List OrganicResult) (q : JVal) :
    (pyTruthy (pyOr gk env.geminiApiKey) = true →
     pyTruthy (pyOr sk env.serpapiApiKey) = true →
      ∃ ag, ResearchAgent.init model topn debug gk sk env = Except.ok ag ∧ ag.topn = topn) ∧
    (a.topn = 0 → (a.searchWeb provider q).results = []) ∧
    (a.topn < 0 →
      (a.searchWeb provider q).results =
        ((provider q).take ((provider q).length - (-a.topn).toNat)).map toSearchResult) := by
  refine ⟨?_, ?_, ?_⟩
  · intro h1 h2
    refine ⟨{ model := model, topn := topn, debug := debug,
              gemini_key := pyOr gk env.geminiApiKey,
              serp_key := pyOr sk env.serpapiApiKey }, ?_, rfl⟩
    simp [ResearchAgent.init, h1, h2]
  · intro h
    simp [ResearchAgent.searchWeb, pySliceTo, pySliceStop, h]
  · intro h
    show ((provider q).take (pySliceStop a.topn (provider q).length)).map toSearchResult = _
    unfold pySliceStop
    rw [if_neg (by omega)]
    have e : (((provider q).length : Int) + a.topn).toNat =
        (provider q).length - (-a.topn).toNat := by omega
    rw [e]

/-- A concrete agent with `topn = 0`. -/
def agentZero : ResearchAgent :=
  { model := "m", topn := 0, debug := false, gemini_key := some "g", serp_key := some "s" }

/-- A concrete agent with `topn = -2`. -/
def agentNeg2 : ResearchAgent :=
  { model := "m", topn := -2, debug := false, gemini_key := some "g", serp_key := some "s" }

/-- A provider stub returning 5 organic results for every query. -/
def provider5 : JVal → List OrganicResult :=
  fun _ => (List.range 5).map (fun i => { title := some (toString i), snippet := none, link := none })

/-- Witness for **C10**: construction succeeds at `topn = -7`; with `topn = 0`
the block's results are empty; with `topn = -2` against 5 provider results the
block keeps the first 3 (all but the last 2). -/
theorem topn_unvalidated_and_negative_slice_witness :
    (∃ ag, ResearchAgent.init "m" (-7) false (some "g") (some "s") ⟨none, none⟩ =
      Except.ok ag ∧ ag.topn = -7) ∧
    (agentZero.searchWeb provider5 (JVal.jstr "q")).results = [] ∧
    ((agentNeg2.searchWeb provider5 (JVal.jstr "q")).results =
      ((provider5 (JVal.jstr "q")).take
        ((provider5 (JVal.jstr "q")).length - (-agentNeg2.topn).toNat)).map toSearchResult) ∧
    (agentNeg2.searchWeb provider5 (JVal.jstr "q")).results.length = 3 :=
  ⟨(topn_unvalidated_and_negative_slice "m" false (some "g") (some "s") ⟨none, none⟩ (-7)
      agentZero provider5 (JVal.jstr "q")).1 rfl rfl,
   (topn_unvalidated_and_negative_slice "m" false (some "g") (some "s") ⟨none, none⟩ (-7)
      agentZero provider5 (JVal.jstr "q")).2.1 rfl,
   (topn_unvalidated_and_negative_slice "m" false (some "g") (some "s") ⟨none, none⟩ (-7)
      agentNeg2 provider5 (JVal.jstr "q")).2.2 (by decide),
   rfl⟩
